import Mathlib

/-!
Shallow embedding of `src/block-sync.js`, a Google-Apps-Script program that
mirrors busy time from source calendars onto a blocker calendar.

Modelling conventions:
* JS objects with optional fields become structures with `Option` fields.
* `undefined === undefined` is `true`, so field comparison on possibly-absent
  fields becomes equality of `Option String`.
* Millisecond timestamps (`Date` arithmetic) are `Int`; `new Date(s)` is an
  environment function `parse : String → Option Int` (`none` = Invalid Date /
  `NaN`; JS `NaN > 90` is `false`, which the embedding reproduces explicitly).
* The Calendar API is an oracle: `search` models
  `Calendar.Events.list(blockerCalId, {q})` (the search index consulted by
  `checkForBlockOnCalendar`), and `WriteSvc` models the three write calls,
  each of which may fail (`Except.error` = thrown service exception).
* Every attempted write is recorded in a trace (`writes`); an uncaught JS
  exception is recorded in `PState.err` and aborts the per-calendar loop,
  exactly as a thrown `TypeError` aborts `processCalendar`.
-/

/-- A Google Calendar date value: `{date}` for all-day events or
`{dateTime, timeZone}` for timed events (`src/block-sync.js` treats these as
plain objects with optional fields). -/
structure EventDate where
  date : Option String
  dateTime : Option String
  timeZone : Option String
deriving Repr, DecidableEq

/-- A calendar event/block as the script sees it.  The JS field `end` is
spelled `endTime` (`end` is reserved in Lean); attendees are modelled by their
email addresses, which is the only attendee field the script reads or writes. -/
structure CalEvent where
  id : String
  summary : Option String
  description : Option String
  status : Option String
  start : Option EventDate
  endTime : Option EventDate
  recurrence : Option (List String)
  attendees : Option (List String)
deriving Repr, DecidableEq

/-- One write against the Calendar API, as issued by `createEvent`,
`updateEvent` and `deleteEvent` (`Calendar.Events.insert/update/remove`). -/
inductive WriteOp where
  | insert (calId : String) (event : CalEvent)
  | update (calId : String) (eventId : String) (event : CalEvent)
  | remove (calId : String) (eventId : String)
deriving Repr, DecidableEq

/-- Association-list lookup, modelling JS object property access
(`obj[k]`, with `hasOwnProperty` ↔ `lookupKey … ≠ none`). -/
def lookupKey {α : Type} (m : List (String × α)) (k : String) : Option α :=
  (m.find? (fun p => p.1 == k)).map (fun p => p.2)

/-- Remove a key, modelling JS `delete obj[k]`. -/
def eraseKey {α : Type} (m : List (String × α)) (k : String) : List (String × α) :=
  m.filter (fun p => !(p.1 == k))

/-- Overwrite a key, modelling JS `obj[k] = v`. -/
def setKey {α : Type} (m : List (String × α)) (k : String) (v : α) : List (String × α) :=
  (k, v) :: eraseKey m k

/-- JS `a || b` on possibly-absent strings: an empty string is falsy. -/
def jsOr (a b : Option String) : Option String :=
  match a with
  | some s => if s = "" then b else some s
  | none => b

/-- Line 152-156: the reconciler's start/end comparison.  It reads only the
`dateTime` and `timeZone` properties of the two date objects (for date-only
values both are `undefined`, and `undefined === undefined`). -/
def areDatesEqual (date1 date2 : Option EventDate) : Bool :=
  match date1, date2 with
  | none, none => true
  | some d1, some d2 => d1.dateTime == d2.dateTime && d1.timeZone == d2.timeZone
  | _, _ => false

/-- Line 159-172: recurrence comparison — equal lengths and identical rules at
each position, i.e. list equality; a present recurrence never equals an
absent one. -/
def areRecurrencesEqual (rec1 rec2 : Option (List String)) : Bool :=
  match rec1, rec2 with
  | none, none => true
  | some a, some b => a == b
  | _, _ => false

/-- The raw fields `areDatesEqual` actually consults (dateTime, timeZone);
used to characterise its behaviour. -/
def rawTimeFields (d : Option EventDate) : Option (Option String × Option String) :=
  d.map (fun x => (x.dateTime, x.timeZone))

/-- The 17-character suffix `_YYYYMMDDThhmmssZ` of the regex
`/^.*_\d{8}T\d{6}Z$/` (line 90). -/
def instanceSuffix : List Char → Bool
  | ['_', d1, d2, d3, d4, d5, d6, d7, d8, 'T', t1, t2, t3, t4, t5, t6, 'Z'] =>
      [d1, d2, d3, d4, d5, d6, d7, d8, t1, t2, t3, t4, t5, t6].all Char.isDigit
  | _ => false

/-- Line 90: `event.id.match(/^.*_\d{8}T\d{6}Z$/)` — the id ends in an
underscore followed by a compact UTC timestamp. -/
def isInstanceId (id : String) : Bool :=
  instanceSuffix (id.toList.drop (id.toList.length - 17))

/-- Line 94: `event.id.replace(/_\d{8}T\d{6}Z$/, '')` — drop the matched
17-character suffix (identity when the id is not instance-shaped). -/
def parentEventId (id : String) : String :=
  if isInstanceId id then String.mk (id.toList.take (id.toList.length - 17)) else id

/-- Line 108: `Math.floor((eventStartDate - today) / (1000*60*60*24))` over
millisecond timestamps; `Int.fdiv` is floor division. -/
def daysDifference (startMs now : Int) : Int :=
  (startMs - now).fdiv 86400000

/-- The write half of the Calendar API; each call can throw
(`Except.error msg`). -/
structure WriteSvc where
  insert : String → CalEvent → Except String CalEvent
  update : String → String → CalEvent → Except String CalEvent
  remove : String → String → Except String CalEvent

/-- Everything `processCalendar` reads from its arguments and its environment:
configuration strings, the `addAttendees` flag, the blocker calendar's search
index, date parsing and the current time. -/
structure Env where
  sourceCalId : String
  blockerCalId : String
  homeEmail : String
  workEmail : String
  addAttendees : Bool
  search : String → List CalEvent
  parse : String → Option Int
  now : Int

/-- Lines 105-113: skip an orphan recurring instance whose start is more than
90 days out.  An unparseable or absent date string yields `NaN` in JS and
`NaN > 90` is `false`, so such instances are not skipped. -/
def horizonSkip (env : Env) (sd : EventDate) : Bool :=
  match jsOr sd.dateTime sd.date with
  | some s =>
    match env.parse s with
    | some t => daysDifference t env.now > 90
    | none => false
  | none => false

/-- Mutable state threaded through one run: the per-calendar
`blockLookupCache`, the run-scoped `crossCalendarBlockTracker`, the trace of
attempted writes, and the pending uncaught exception (if any). -/
structure PState where
  cache : List (String × Option CalEvent)
  tracker : List String
  writes : List WriteOp
  err : Option String
deriving Repr, DecidableEq

/-- Lines 246-286: consult the cache, else search the blocker calendar and
keep only a block whose `description` exactly equals the event id; the result
(found block or `null`) is cached either way. -/
def checkForBlockOnCalendar (search : String → List CalEvent) (eventId : String)
    (blockLookupCache : List (String × Option CalEvent)) :
    Option CalEvent × List (String × Option CalEvent) :=
  match lookupKey blockLookupCache eventId with
  | some cached => (cached, blockLookupCache)
  | none =>
    match (search eventId).find? (fun block => block.description == some eventId) with
    | some matchingBlock => (some matchingBlock, setKey blockLookupCache eventId (some matchingBlock))
    | none => (none, setKey blockLookupCache eventId none)

/-- Lines 295-304: `Calendar.Events.remove` wrapped in try/catch — a failure
is logged (returned as `some msg`) and never rethrown. -/
def deleteEvent (svc : WriteSvc) (calendarId eventId : String) : Option String :=
  match svc.remove calendarId eventId with
  | .ok _ => none
  | .error e => some e

/-- Lines 314-323: `Calendar.Events.update` wrapped in try/catch — a failure
is logged and never rethrown. -/
def updateEvent (svc : WriteSvc) (calendarId eventId : String) (event : CalEvent) : Option String :=
  match svc.update calendarId eventId event with
  | .ok _ => none
  | .error e => some e

/-- Lines 332-342: `Calendar.Events.insert` wrapped in try/catch — returns the
created event, or `none` (JS `undefined`) when the insert failed. -/
def createEvent (svc : WriteSvc) (calendarId : String) (event : CalEvent) : Option CalEvent :=
  match svc.insert calendarId event with
  | .ok created => some created
  | .error _ => none

/-- Lines 213-222: the block submitted for a new event — marker summary,
description = event id, start/end/recurrence copied, work attendee. -/
def buildBlock (env : Env) (event : CalEvent) : CalEvent :=
  { id := "", summary := some "🟢 BLOCK", description := some event.id,
    status := none, start := event.start, endTime := event.endTime,
    recurrence := event.recurrence, attendees := some [env.workEmail] }

/-- Lines 121-133: for the scheduler calendar, append the home email to a
not-cancelled event's attendees (mutating the local event object) and push an
update back to the source calendar. -/
def attendeePhase (svc : WriteSvc) (env : Env) (st : PState) (event : CalEvent) :
    CalEvent × PState :=
  if env.addAttendees && !(event.status == some "cancelled") then
    match event.attendees with
    | some atts =>
      if atts.length > 0 then
        if !(atts.contains env.homeEmail) then
          let event2 := { event with attendees := some (atts ++ [env.homeEmail]) }
          let _caught := updateEvent svc env.sourceCalId event.id event2
          (event2, { st with writes := st.writes ++ [.update env.sourceCalId event.id event2] })
        else (event, st)
      else
        let event2 := { event with attendees := some [env.homeEmail] }
        let _caught := updateEvent svc env.sourceCalId event.id event2
        (event2, { st with writes := st.writes ++ [.update env.sourceCalId event.id event2] })
    | none =>
      let event2 := { event with attendees := some [env.homeEmail] }
      let _caught := updateEvent svc env.sourceCalId event.id event2
      (event2, { st with writes := st.writes ++ [.update env.sourceCalId event.id event2] })
  else (event, st)

/-- Lines 190-195: the in-place mutation of a changed block — start, end and
recurrence overwritten with the event's values (`delete matchingBlock.recurrence`
followed by conditional reassignment is overwriting with the event's
possibly-absent recurrence). -/
def updatedBlock (matchingBlock event : CalEvent) : CalEvent :=
  { matchingBlock with start := event.start, endTime := event.endTime,
                       recurrence := event.recurrence }

/-- Lines 135-231: look the event id up on the blocker calendar and apply the
decision table — delete a block for a cancelled event, update a changed one,
create a missing one (guarded by the cross-calendar tracker), else do
nothing.  On create, the tracker gains the id and the insert is dispatched
whether or not it succeeds; only a successful create is cached. -/
def reconcilePhase (svc : WriteSvc) (env : Env) (st : PState) (event : CalEvent) : PState :=
  match checkForBlockOnCalendar env.search event.id st.cache with
  | (some matchingBlock, cache2) =>
    if event.status == some "cancelled" then
      let _caught := deleteEvent svc env.blockerCalId matchingBlock.id
      { st with cache := setKey cache2 event.id none,
                writes := st.writes ++ [.remove env.blockerCalId matchingBlock.id] }
    else
      if !(areDatesEqual matchingBlock.start event.start)
          || !(areDatesEqual matchingBlock.endTime event.endTime)
          || !(areRecurrencesEqual matchingBlock.recurrence event.recurrence) then
        let _caught := updateEvent svc env.blockerCalId matchingBlock.id
          (updatedBlock matchingBlock event)
        { st with cache := setKey cache2 event.id (some (updatedBlock matchingBlock event)),
                  writes := st.writes ++
                    [.update env.blockerCalId matchingBlock.id (updatedBlock matchingBlock event)] }
      else { st with cache := cache2 }
  | (none, cache2) =>
    if !(event.status == some "cancelled") then
      if st.tracker.contains event.id then { st with cache := cache2 }
      else
        match createEvent svc env.blockerCalId (buildBlock env event) with
        | some createdBlock =>
          { st with cache := setKey cache2 event.id (some createdBlock),
                    tracker := event.id :: st.tracker,
                    writes := st.writes ++ [.insert env.blockerCalId (buildBlock env event)] }
        | none =>
          { st with cache := cache2,
                    tracker := event.id :: st.tracker,
                    writes := st.writes ++ [.insert env.blockerCalId (buildBlock env event)] }
    else { st with cache := cache2 }

/-- Lines 120-231: attendee propagation followed by block reconciliation —
the processing every non-suppressed event receives. -/
def handleEvent (svc : WriteSvc) (env : Env) (st : PState) (event : CalEvent) : PState :=
  let p := attendeePhase svc env st event
  reconcilePhase svc env p.2 p.1

/-- Lines 85-231, one loop iteration: recurring-instance classification
(parent-block suppression, then the 90-day horizon, where reading
`event.start.dateTime` of an absent `start` throws a `TypeError`), then
normal handling. -/
def processEvent (svc : WriteSvc) (env : Env) (st : PState) (event : CalEvent) : PState :=
  if isInstanceId event.id then
    match checkForBlockOnCalendar env.search (parentEventId event.id) st.cache with
    | (some _, cache2) => { st with cache := cache2 }
    | (none, cache2) =>
      match event.start with
      | none => { st with cache := cache2,
                          err := some "TypeError: cannot read dateTime of undefined" }
      | some sd =>
        if horizonSkip env sd then { st with cache := cache2 }
        else handleEvent svc env { st with cache := cache2 } event
  else handleEvent svc env st event

/-- Lines 73-235: process one source calendar's fetched events with a fresh
`blockLookupCache`, sharing the caller's tracker; a thrown exception
(`err ≠ none`) aborts the loop, as an uncaught JS exception would. -/
def processCalendar (svc : WriteSvc) (env : Env) (dryRun : Bool)
    (tracker0 : List String) (events : List CalEvent) : PState :=
  let init : PState := { cache := [], tracker := tracker0, writes := [], err := none }
  if dryRun then init
  else events.foldl (fun st ev => if st.err.isSome then st else processEvent svc env st ev) init

/-- Run configuration read from script properties (lines 6, 14-25). -/
structure RunCfg where
  schedulerCal : String
  homeCal : String
  blockerCal : String
  homeEmail : String
  workEmail : String
deriving Repr, DecidableEq

/-- The `processCalendar` call for the scheduler calendar (line 22):
attendee modification enabled. -/
def schedulerEnv (cfg : RunCfg) (search : String → List CalEvent)
    (parse : String → Option Int) (now : Int) : Env :=
  { sourceCalId := cfg.schedulerCal, blockerCalId := cfg.blockerCal,
    homeEmail := cfg.homeEmail, workEmail := cfg.workEmail,
    addAttendees := true, search := search, parse := parse, now := now }

/-- The `processCalendar` call for the home calendar (line 25):
attendee modification disabled. -/
def homeEnv (cfg : RunCfg) (search : String → List CalEvent)
    (parse : String → Option Int) (now : Int) : Env :=
  { sourceCalId := cfg.homeCal, blockerCalId := cfg.blockerCal,
    homeEmail := cfg.homeEmail, workEmail := cfg.workEmail,
    addAttendees := false, search := search, parse := parse, now := now }

/-- Lines 5-26 (`reactiveEntryPoint`), with the two `fetchEventsByToken`
results abstracted as `fetched`: one tracker is allocated, both calendars'
events are fetched, then the scheduler calendar is processed, then the home
calendar with the same tracker.  An exception thrown while processing the
scheduler calendar propagates and the home calendar is never processed. -/
def reactiveRun (cfg : RunCfg) (svc : WriteSvc) (fetched : String → List CalEvent)
    (search : String → List CalEvent) (parse : String → Option Int) (now : Int) : PState :=
  let schedulerEvents := fetched cfg.schedulerCal
  let homeEvents := fetched cfg.homeCal
  let st1 := processCalendar svc (schedulerEnv cfg search parse now) false [] schedulerEvents
  match st1.err with
  | some _ => st1
  | none =>
    let st2 := processCalendar svc (homeEnv cfg search parse now) false st1.tracker homeEvents
    { cache := st2.cache, tracker := st2.tracker,
      writes := st1.writes ++ st2.writes, err := st2.err }

/-- A top-level action of a run, in the order the entry point performs them:
a delta fetch for a calendar, or a write issued while processing a given
source calendar. -/
inductive RunAction where
  | fetch (calId : String)
  | write (sourceCalId : String) (op : WriteOp)
deriving Repr, DecidableEq

/-- The time-ordered action trace of `reactiveEntryPoint` (lines 13-25):
both fetches happen first, then the scheduler calendar's reconciliation
writes, then the home calendar's. -/
def reactiveRunTrace (cfg : RunCfg) (svc : WriteSvc) (fetched : String → List CalEvent)
    (search : String → List CalEvent) (parse : String → Option Int) (now : Int) :
    List RunAction :=
  let st1 := processCalendar svc (schedulerEnv cfg search parse now) false []
    (fetched cfg.schedulerCal)
  match st1.err with
  | some _ =>
    RunAction.fetch cfg.schedulerCal :: RunAction.fetch cfg.homeCal ::
      st1.writes.map (RunAction.write cfg.schedulerCal)
  | none =>
    let st2 := processCalendar svc (homeEnv cfg search parse now) false st1.tracker
      (fetched cfg.homeCal)
    RunAction.fetch cfg.schedulerCal :: RunAction.fetch cfg.homeCal ::
      (st1.writes.map (RunAction.write cfg.schedulerCal) ++
       st2.writes.map (RunAction.write cfg.homeCal))

/-- Is this action a write issued while processing source `c`? -/
def isWriteFor (c : String) : RunAction → Bool
  | RunAction.write s _ => s == c
  | RunAction.fetch _ => false

/-- Is this action any write? -/
def isWriteAct : RunAction → Bool
  | RunAction.write _ _ => true
  | RunAction.fetch _ => false

/-- Claim-side definition, following the spec's words (§5): the trace drains
source `c1` completely — its fetch, then all of its reconciliation writes —
before the fetch of source `c2` begins, after which only `c2`'s writes
occur. -/
def drainShape (c1 c2 : String) (trace : List RunAction) : Bool :=
  match trace with
  | RunAction.fetch a :: rest =>
    a == c1 &&
    (rest.takeWhile isWriteAct).all (isWriteFor c1) &&
    (match rest.dropWhile isWriteAct with
     | RunAction.fetch b :: rest2 =>
       b == c2 && rest2.all (fun x => isWriteAct x && isWriteFor c2 x)
     | _ => false)
  | _ => false

/-! ### The change-feed fetcher (`fetchEventsByToken`, lines 400-467) -/

/-- The options object passed to `Calendar.Events.list` during a delta fetch.
`timeMin` carries the ISO string of `getRelativeDate(-30, 0)`. -/
structure FetchOptions where
  maxResults : Nat
  syncToken : Option String
  timeMin : Option String
  timeMax : Option String
  pageToken : Option String
deriving Repr, DecidableEq

/-- One page returned by `Calendar.Events.list`. -/
structure EventsPage where
  items : List CalEvent
  nextPageToken : Option String
  nextSyncToken : Option String
deriving Repr, DecidableEq

/-- The persisted sync-token map (user property `syncTokens`), modelled as the
parsed mapping rather than its JSON serialisation. -/
structure SyncState where
  syncTokens : List (String × String)
deriving Repr, DecidableEq

/-- JS `msg.includes(sub)`. -/
def messageIncludes (msg sub : String) : Bool :=
  (List.range (msg.length + 1)).any (fun i => sub.toList.isPrefixOf (msg.toList.drop i))

/-- Lines 434-458: fetch pages until no `nextPageToken` is returned,
concatenating the items; a thrown service error aborts the whole loop.
`fuel` bounds the page count (the JS loop relies on the service
terminating); returns `none` on fuel exhaustion. -/
def fetchPages (svcList : FetchOptions → Except String EventsPage) (base : FetchOptions) :
    Nat → Option String → List CalEvent →
    Option (Except String (List CalEvent × Option String))
  | 0, _, _ => none
  | fuel + 1, pageToken, acc =>
    match svcList { base with pageToken := pageToken } with
    | .error msg => some (.error msg)
    | .ok events =>
      let acc2 := acc ++ events.items
      match events.nextPageToken with
      | some pt => fetchPages svcList base fuel (some pt) acc2
      | none => some (.ok (acc2, events.nextSyncToken))

/-- JS truthiness of a stored token (`syncTokens[calendarId]`): present and
non-empty. -/
def tokenTruthy (stored : Option String) : Bool :=
  match stored with
  | some t => t != ""
  | none => false

/-- The incremental options built when a stored token is used (line 428). -/
def tokenModeOpts (stored : Option String) : FetchOptions :=
  { maxResults := 100, syncToken := stored, timeMin := none, timeMax := none,
    pageToken := none }

/-- The full-resync options (line 431): 30-day-past lower bound, no upper
bound, no sync token. -/
def fullModeOpts (timeMin30 : String) : FetchOptions :=
  { maxResults := 100, syncToken := none, timeMin := some timeMin30,
    timeMax := none, pageToken := none }

/-- The error message the server uses to reject a stale token (line 444). -/
def staleTokenMsg : String := "Sync token is no longer valid"

/-- Lines 407-467 (`fetchEventsByToken`): use the stored token when present
(unless `fullSync`), else the 30-day window; on a token-invalid error, delete
the stored token, persist, and retry once with `fullSync = true`; propagate
any other error; on success store the new `nextSyncToken` when one was
returned.  `retryFuel` bounds the retry recursion (in JS a token-invalid error
on a tokenless fetch would recurse again), `pageFuel` the pagination. -/
def fetchEventsByToken (svcList : FetchOptions → Except String EventsPage)
    (calendarId timeMin30 : String) (pageFuel : Nat) :
    Nat → Bool → SyncState → Option (Except String (List CalEvent) × SyncState)
  | 0, _, _ => none
  | retryFuel + 1, fullSync, st =>
    let stored := lookupKey st.syncTokens calendarId
    let opts : FetchOptions :=
      if !fullSync && tokenTruthy stored then tokenModeOpts stored
      else fullModeOpts timeMin30
    match fetchPages svcList opts pageFuel none [] with
    | none => none
    | some (.error msg) =>
      if messageIncludes msg staleTokenMsg then
        let st2 : SyncState := { syncTokens := eraseKey st.syncTokens calendarId }
        fetchEventsByToken svcList calendarId timeMin30 pageFuel retryFuel true st2
      else some (.error msg, st)
    | some (.ok (evts, nextSync)) =>
      match nextSync with
      | some tok => some (.ok evts, { syncTokens := setKey st.syncTokens calendarId tok })
      | none => some (.ok evts, st)

/-- How lines 453-466 turn a completed full-resync page loop into the caller's
result: propagate an error with the state untouched, else return the events
and store the new token when one was issued. -/
def fullFetchOutcome (res : Option (Except String (List CalEvent × Option String)))
    (st : SyncState) (calendarId : String) :
    Option (Except String (List CalEvent) × SyncState) :=
  match res with
  | none => none
  | some (.error msg) => some (.error msg, st)
  | some (.ok (evts, some tok)) =>
    some (.ok evts, { syncTokens := setKey st.syncTokens calendarId tok })
  | some (.ok (evts, none)) => some (.ok evts, st)

/-- A page-loop result that is not a stale-token rejection (so the fallback
recursion stops after the one retry). -/
def notStaleTokenRes (res : Option (Except String (List CalEvent × Option String))) : Bool :=
  match res with
  | some (.error msg) => !(messageIncludes msg staleTokenMsg)
  | _ => true

/-! ### Derived notions used by the theorems -/

/-- The source-event ids for which a block create was dispatched, in dispatch
order (the `description` of each inserted block is the originating event's
id, line 215). -/
def createdIds (ws : List WriteOp) : List String :=
  ws.filterMap (fun op =>
    match op with
    | WriteOp.insert _ ev => ev.description
    | _ => none)

/-- How many creates in the trace carry a given source-event id as their
block description. -/
def createCount (ws : List WriteOp) (id : String) : Nat :=
  ws.countP (fun op =>
    match op with
    | WriteOp.insert _ ev => ev.description == some id
    | _ => false)

/-- Invariant tying the write trace to the creation tracker, relative to the
tracker contents `t0` at the start of the current calendar: every dispatched
create's id is in the tracker and was not in `t0`, no id is created twice,
and the tracker only grows. -/
def TrackerInv (t0 : List String) (st : PState) : Prop :=
  (createdIds st.writes).Nodup ∧
  (∀ id ∈ createdIds st.writes, id ∈ st.tracker ∧ id ∉ t0) ∧
  (∀ id ∈ t0, id ∈ st.tracker)

/-! ### Concrete fixtures used by witnesses and counterexamples -/

/-- An event with every optional field absent. -/
def emptyEvent : CalEvent :=
  { id := "", summary := none, description := none, status := none,
    start := none, endTime := none, recurrence := none, attendees := none }

/-- A write service where every call succeeds. -/
def svcOk : WriteSvc :=
  { insert := fun _ ev => .ok { ev with id := "created-1" },
    update := fun _ _ ev => .ok ev,
    remove := fun _ eventId => .ok { emptyEvent with id := eventId } }

/-- A write service where every call throws. -/
def svcFail : WriteSvc :=
  { insert := fun _ _ => .error "Service error",
    update := fun _ _ _ => .error "Service error",
    remove := fun _ _ => .error "Service error" }

/-- The empty per-calendar state with an empty tracker. -/
def st0 : PState := { cache := [], tracker := [], writes := [], err := none }

/-- A timed start value. -/
def dtJun1 : EventDate :=
  { date := none, dateTime := some "2025-06-01T09:00:00Z", timeZone := some "UTC" }

/-- A timed end value. -/
def dtJun1End : EventDate :=
  { date := none, dateTime := some "2025-06-01T10:00:00Z", timeZone := some "UTC" }

/-- A confirmed standalone source event. -/
def evMeeting : CalEvent :=
  { id := "evt1", summary := some "Meeting", description := none,
    status := some "confirmed", start := some dtJun1, endTime := some dtJun1End,
    recurrence := none, attendees := some ["home@example.com"] }

/-- The same event after cancellation. -/
def evCancelled : CalEvent := { evMeeting with status := some "cancelled" }

/-- A block on the blocker calendar correlated to `evMeeting` (description =
its id), with identical start/end/recurrence. -/
def blockForMeeting : CalEvent :=
  { id := "blk1", summary := some "🟢 BLOCK", description := some "evt1",
    status := some "confirmed", start := some dtJun1, endTime := some dtJun1End,
    recurrence := none, attendees := some ["work@example.com"] }

/-- An environment whose blocker-calendar search finds `blockForMeeting` for
every query. -/
def envFound : Env :=
  { sourceCalId := "src", blockerCalId := "blocker",
    homeEmail := "home@example.com", workEmail := "work@example.com",
    addAttendees := false, search := fun _ => [blockForMeeting],
    parse := fun _ => none, now := 0 }

/-- An environment whose blocker-calendar search finds nothing. -/
def envEmpty : Env :=
  { sourceCalId := "src", blockerCalId := "blocker",
    homeEmail := "home@example.com", workEmail := "work@example.com",
    addAttendees := false, search := fun _ => [],
    parse := fun _ => none, now := 0 }

/-- A recurring-series parent block (description = the parent id). -/
def parentBlock : CalEvent :=
  { id := "blkP", summary := some "🟢 BLOCK", description := some "parent123",
    status := some "confirmed", start := some dtJun1, endTime := some dtJun1End,
    recurrence := some ["RRULE:FREQ=DAILY"], attendees := some ["work@example.com"] }

/-- An environment that finds `parentBlock` when queried for `parent123`. -/
def envParent : Env :=
  { sourceCalId := "src", blockerCalId := "blocker",
    homeEmail := "home@example.com", workEmail := "work@example.com",
    addAttendees := false, search := fun q => if q = "parent123" then [parentBlock] else [],
    parse := fun _ => none, now := 0 }

/-- An environment with no blocks and a date parser mapping the two marker
strings to 91 and 89 days (in ms) after `now = 0`. -/
def envHorizon : Env :=
  { sourceCalId := "src", blockerCalId := "blocker",
    homeEmail := "home@example.com", workEmail := "work@example.com",
    addAttendees := false, search := fun _ => [],
    parse := fun s =>
      if s = "FAR" then some (86400000 * 91)
      else if s = "NEAR" then some (86400000 * 89) else none,
    now := 0 }

/-- A recurring instance of `parent123`, 89 days out. -/
def evInstNear : CalEvent :=
  { id := "parent123_20250601T090000Z", summary := none, description := none,
    status := some "confirmed",
    start := some { date := none, dateTime := some "NEAR", timeZone := some "UTC" },
    endTime := some { date := none, dateTime := some "NEAR", timeZone := some "UTC" },
    recurrence := none, attendees := none }

/-- The same recurring instance, 91 days out. -/
def evInstFar : CalEvent :=
  { evInstNear with
    start := some { date := none, dateTime := some "FAR", timeZone := some "UTC" },
    endTime := some { date := none, dateTime := some "FAR", timeZone := some "UTC" } }

/-- A recurring instance delivered without a `start` field, as a change feed
does for cancelled instances. -/
def evOrphanNoStart : CalEvent :=
  { id := "parent123_20250601T090000Z", summary := none, description := none,
    status := some "cancelled", start := none, endTime := none,
    recurrence := none, attendees := none }

/-- A parent series event whose block creation is attempted first. -/
def evParentSeries : CalEvent :=
  { id := "parent123", summary := some "Standup", description := none,
    status := some "confirmed", start := some dtJun1, endTime := some dtJun1End,
    recurrence := some ["RRULE:FREQ=DAILY"], attendees := none }

/-- Run configuration for the entry-point scenarios. -/
def cfgRun : RunCfg :=
  { schedulerCal := "sched", homeCal := "home", blockerCal := "blocker",
    homeEmail := "home@example.com", workEmail := "work@example.com" }

/-- Fetched deltas for the entry-point scenarios: one confirmed event on the
scheduler calendar, nothing on the home calendar. -/
def fetchedRun : String → List CalEvent :=
  fun c => if c = "sched" then [evMeeting] else []

/-- Blocker-calendar search for the entry-point scenarios: finds nothing. -/
def searchRun : String → List CalEvent := fun _ => []

/-- Date parser for the entry-point scenarios (never needed). -/
def parseRun : String → Option Int := fun _ => none

/-- The page service for the token-fallback witness: rejects the stored token
`tok0` as stale and answers every tokenless query with one empty page and a
fresh token. -/
def svcListWit : FetchOptions → Except String EventsPage :=
  fun opts =>
    if opts.syncToken = some "tok0" then .error "Sync token is no longer valid"
    else .ok { items := [], nextPageToken := none, nextSyncToken := some "tok1" }

/-- Persisted sync state holding a stale token for `cal1`. -/
def syncStWit : SyncState := { syncTokens := [("cal1", "tok0")] }

/-! ### Helper lemmas -/

theorem lookupKey_setKey {α : Type} (m : List (String × α)) (k : String) (v : α) :
    lookupKey (setKey m k v) k = some v := by
  simp [lookupKey, setKey, List.find?]

theorem lookupKey_eraseKey {α : Type} (m : List (String × α)) (k : String) :
    lookupKey (eraseKey m k) k = none := by
  simp only [lookupKey, eraseKey]
  rw [List.find?_eq_none.mpr]
  · rfl
  · intro x hx
    have hp := List.of_mem_filter hx
    simp only [Bool.not_eq_true', beq_eq_false_iff_ne, ne_eq] at hp
    simp [hp]

theorem areDatesEqual_refl (d : Option EventDate) : areDatesEqual d d = true := by
  cases d <;> simp [areDatesEqual]

theorem areRecurrencesEqual_refl (r : Option (List String)) :
    areRecurrencesEqual r r = true := by
  cases r <;> simp [areRecurrencesEqual]

theorem createdIds_append (a b : List WriteOp) :
    createdIds (a ++ b) = createdIds a ++ createdIds b := by
  simp [createdIds]

/-! ### C3 — start/end equality rules -/

/-- C3 counterexample: the claim says two date-only values with different
dates are unequal, but `areDatesEqual` compares only the `dateTime` and
`timeZone` fields, so two all-day values on different days — raw fields not
identical — nevertheless compare equal. -/
theorem c3_counterexample :
    areDatesEqual (some { date := some "2025-06-01", dateTime := none, timeZone := none })
        (some { date := some "2025-06-02", dateTime := none, timeZone := none }) = true
    ∧ ({ date := some "2025-06-01", dateTime := none, timeZone := none } : EventDate)
        ≠ { date := some "2025-06-02", dateTime := none, timeZone := none } :=
  ⟨rfl, by decide⟩

/-- C3 (amended): two start/end values compare equal exactly when both are
absent, or both are present with identical `dateTime` literal and identical
`timeZone` label; the `date` field is ignored, so a date-only value and a
date-time value are never equal, but two date-only values with different
dates compare equal. -/
theorem c3_date_equality_characterisation :
    (∀ d1 d2 : Option EventDate,
        areDatesEqual d1 d2 = true ↔ rawTimeFields d1 = rawTimeFields d2)
    ∧ (∀ a b : EventDate, a.dateTime = none → b.dateTime ≠ none →
        areDatesEqual (some a) (some b) = false) := by
  constructor
  · intro d1 d2
    cases d1 <;> cases d2 <;>
      simp [areDatesEqual, rawTimeFields, Prod.ext_iff]
  · intro a b ha hb
    cases hbd : b.dateTime with
    | none => exact absurd hbd hb
    | some s => simp [areDatesEqual, ha, hbd]

/-! ### C9 — cancellation -/

/-- C9: reconciling a cancelled non-instance event whose lookup finds a
matching block appends exactly one delete of that block on the blocker
calendar, marks the cache entry for the event id absent (`null`), and leaves
the tracker and error state untouched. -/
theorem c9_cancelled_event_single_delete
    (svc : WriteSvc) (env : Env) (st : PState) (ev mb : CalEvent)
    (c2 : List (String × Option CalEvent))
    (hinst : isInstanceId ev.id = false)
    (hlook : checkForBlockOnCalendar env.search ev.id st.cache = (some mb, c2))
    (hstatus : ev.status = some "cancelled") :
    (processEvent svc env st ev).writes = st.writes ++ [WriteOp.remove env.blockerCalId mb.id]
    ∧ lookupKey (processEvent svc env st ev).cache ev.id = some none
    ∧ (processEvent svc env st ev).tracker = st.tracker
    ∧ (processEvent svc env st ev).err = st.err := by
  have hstatusb : (ev.status == some "cancelled") = true := by rw [hstatus]; rfl
  have h1 : processEvent svc env st ev = reconcilePhase svc env st ev := by
    simp [processEvent, hinst, handleEvent, attendeePhase, hstatusb]
  have h2 : reconcilePhase svc env st ev =
      { st with cache := setKey c2 ev.id none,
                writes := st.writes ++ [WriteOp.remove env.blockerCalId mb.id] } := by
    simp only [reconcilePhase, hlook]
    simp [hstatusb]
  rw [h1, h2]
  exact ⟨rfl, lookupKey_setKey c2 ev.id none, rfl, rfl⟩

/-- Witness for C9: the cancelled `evt1` with block `blk1` present — one
delete of `blk1`, cache entry `null`. -/
theorem c9_witness :
    (processEvent svcOk envFound st0 evCancelled).writes
        = st0.writes ++ [WriteOp.remove envFound.blockerCalId blockForMeeting.id]
    ∧ lookupKey (processEvent svcOk envFound st0 evCancelled).cache evCancelled.id = some none
    ∧ (processEvent svcOk envFound st0 evCancelled).tracker = st0.tracker
    ∧ (processEvent svcOk envFound st0 evCancelled).err = st0.err :=
  c9_cancelled_event_single_delete svcOk envFound st0 evCancelled blockForMeeting
    [(evCancelled.id, some blockForMeeting)] (by decide) rfl rfl

/-! ### Error-field helper lemmas -/

theorem attendeePhase_err (svc : WriteSvc) (env : Env) (st : PState) (ev : CalEvent) :
    ((attendeePhase svc env st ev).2).err = st.err := by
  unfold attendeePhase
  repeat' split
  all_goals rfl

theorem reconcilePhase_err (svc : WriteSvc) (env : Env) (st : PState) (ev : CalEvent) :
    (reconcilePhase svc env st ev).err = st.err := by
  unfold reconcilePhase
  repeat' split
  all_goals rfl

theorem handleEvent_err (svc : WriteSvc) (env : Env) (st : PState) (ev : CalEvent) :
    (handleEvent svc env st ev).err = st.err := by
  unfold handleEvent
  rw [reconcilePhase_err, attendeePhase_err]

/-! ### C5 — recurring-instance resolution -/

/-- C5: an instance-shaped event is suppressed with no state change (beyond
the parent lookup being cached) when a block for the derived parent id
exists; with no parent block and inside the horizon it is handed to the
ordinary event handling (`handleEvent`, which correlates by the instance's
own id), exactly as a non-instance event is. -/
theorem c5_recurring_instance_resolution
    (svc : WriteSvc) (env : Env) (st : PState) (ev : CalEvent)
    (pb : Option CalEvent) (c2 : List (String × Option CalEvent))
    (hinst : isInstanceId ev.id = true)
    (hlook : checkForBlockOnCalendar env.search (parentEventId ev.id) st.cache = (pb, c2)) :
    (∀ b, pb = some b → processEvent svc env st ev = { st with cache := c2 })
    ∧ (∀ sd, pb = none → ev.start = some sd → horizonSkip env sd = false →
        processEvent svc env st ev = handleEvent svc env { st with cache := c2 } ev)
    ∧ (∀ ev2 : CalEvent, isInstanceId ev2.id = false →
        processEvent svc env st ev2 = handleEvent svc env st ev2) := by
  refine ⟨?_, ?_, ?_⟩
  · intro b hb
    simp [processEvent, hinst, hlook, hb]
  · intro sd hb hs hh
    simp [processEvent, hinst, hlook, hb, hs, hh]
  · intro ev2 h2
    simp [processEvent, h2]

/-- Witness for C5: the instance `parent123_20250601T090000Z` is suppressed
when `parent123` has a block, and is handled as an ordinary event when no
parent block exists and it is 89 days out. -/
theorem c5_witness :
    processEvent svcOk envParent st0 evInstNear
        = { st0 with cache := [("parent123", some parentBlock)] }
    ∧ processEvent svcOk envHorizon st0 evInstNear
        = handleEvent svcOk envHorizon { st0 with cache := [("parent123", none)] } evInstNear := by
  constructor
  · exact (c5_recurring_instance_resolution svcOk envParent st0 evInstNear
      (some parentBlock) [("parent123", some parentBlock)] (by decide) rfl).1 parentBlock rfl
  · exact (c5_recurring_instance_resolution svcOk envHorizon st0 evInstNear
      none [("parent123", none)] (by decide) rfl).2.1
      { date := none, dateTime := some "NEAR", timeZone := some "UTC" } rfl rfl (by decide)

/-! ### C6 — 90-day horizon -/

/-- C6: an orphan recurring instance (no parent block) whose floor day-offset
from now exceeds 90 is suppressed with no write; at 90 days or fewer it is
handed to the ordinary event handling. -/
theorem c6_horizon_cutoff
    (svc : WriteSvc) (env : Env) (st : PState) (ev : CalEvent) (sd : EventDate)
    (s : String) (t : Int) (c2 : List (String × Option CalEvent))
    (hinst : isInstanceId ev.id = true)
    (hlook : checkForBlockOnCalendar env.search (parentEventId ev.id) st.cache = (none, c2))
    (hstart : ev.start = some sd)
    (hors : jsOr sd.dateTime sd.date = some s)
    (hparse : env.parse s = some t) :
    (daysDifference t env.now > 90 →
        processEvent svc env st ev = { st with cache := c2 })
    ∧ (daysDifference t env.now ≤ 90 →
        processEvent svc env st ev = handleEvent svc env { st with cache := c2 } ev) := by
  have hskip : horizonSkip env sd = decide (daysDifference t env.now > 90) := by
    simp [horizonSkip, hors, hparse]
  constructor
  · intro hgt
    have hs : horizonSkip env sd = true := by rw [hskip]; exact decide_eq_true hgt
    simp [processEvent, hinst, hlook, hstart, hs]
  · intro hle
    have hs : horizonSkip env sd = false := by
      rw [hskip]; exact decide_eq_false (not_lt.mpr hle)
    simp [processEvent, hinst, hlook, hstart, hs]

/-- Witness for C6: the same orphan instance is suppressed at 91 days out and
handled normally at 89 days out. -/
theorem c6_witness :
    processEvent svcOk envHorizon st0 evInstFar
        = { st0 with cache := [("parent123", none)] }
    ∧ processEvent svcOk envHorizon st0 evInstNear
        = handleEvent svcOk envHorizon { st0 with cache := [("parent123", none)] } evInstNear := by
  constructor
  · exact (c6_horizon_cutoff svcOk envHorizon st0 evInstFar
      { date := none, dateTime := some "FAR", timeZone := some "UTC" } "FAR" (86400000 * 91)
      [("parent123", none)] (by decide) rfl rfl rfl rfl).1 (by decide)
  · exact (c6_horizon_cutoff svcOk envHorizon st0 evInstNear
      { date := none, dateTime := some "NEAR", timeZone := some "UTC" } "NEAR" (86400000 * 89)
      [("parent123", none)] (by decide) rfl rfl rfl rfl).2 (by decide)

/-! ### C10 — orphan instance without a start -/

/-- C10: an instance-shaped event with no parent block has its `start`
dereferenced unconditionally for the horizon computation: if `start` is
absent, processing throws (a `TypeError` is recorded and the loop aborts)
before any reconciliation action — no write and no tracker change; if
`start` is present, this path never raises. -/
theorem c10_orphan_without_start_throws
    (svc : WriteSvc) (env : Env) (st : PState) (ev : CalEvent)
    (c2 : List (String × Option CalEvent))
    (hinst : isInstanceId ev.id = true)
    (hlook : checkForBlockOnCalendar env.search (parentEventId ev.id) st.cache = (none, c2)) :
    (ev.start = none →
        (processEvent svc env st ev).err = some "TypeError: cannot read dateTime of undefined"
        ∧ (processEvent svc env st ev).writes = st.writes
        ∧ (processEvent svc env st ev).tracker = st.tracker)
    ∧ (∀ sd, ev.start = some sd → (processEvent svc env st ev).err = st.err) := by
  constructor
  · intro hstart
    simp [processEvent, hinst, hlook, hstart]
  · intro sd hstart
    simp only [processEvent, hinst, hlook, hstart]
    simp only [if_true]
    split
    · rfl
    · rw [handleEvent_err]

/-- Witness for C10: a cancelled recurring instance delivered without `start`
(and с no parent block) makes the run throw with nothing written. -/
theorem c10_witness :
    (processEvent svcOk envEmpty st0 evOrphanNoStart).err
        = some "TypeError: cannot read dateTime of undefined"
    ∧ (processEvent svcOk envEmpty st0 evOrphanNoStart).writes = st0.writes
    ∧ (processEvent svcOk envEmpty st0 evOrphanNoStart).tracker = st0.tracker :=
  (c10_orphan_without_start_throws svcOk envEmpty st0 evOrphanNoStart
    [("parent123", none)] (by decide) rfl).1 rfl

/-! ### C4 — idempotence of unchanged events -/

/-- C4: reconciliation of a not-cancelled event whose matching block has
equal start, end and recurrence issues no write (the state is unchanged but
for the lookup cache); consequently a fresh event produces exactly one
create on its first run, and a second run that finds the created block (same
correlation key, same copied fields) writes nothing. -/
theorem c4_unchanged_event_idempotent :
    (∀ (svc : WriteSvc) (env : Env) (st : PState) (ev mb : CalEvent)
        (c2 : List (String × Option CalEvent)),
        checkForBlockOnCalendar env.search ev.id st.cache = (some mb, c2) →
        (ev.status == some "cancelled") = false →
        areDatesEqual mb.start ev.start = true →
        areDatesEqual mb.endTime ev.endTime = true →
        areRecurrencesEqual mb.recurrence ev.recurrence = true →
        reconcilePhase svc env st ev = { st with cache := c2 })
    ∧ (∀ (svc : WriteSvc) (env : Env) (ev : CalEvent),
        env.addAttendees = false →
        isInstanceId ev.id = false →
        (ev.status == some "cancelled") = false →
        (env.search ev.id).find? (fun b => b.description == some ev.id) = none →
        (processCalendar svc env false [] [ev]).writes
          = [WriteOp.insert env.blockerCalId (buildBlock env ev)])
    ∧ (∀ (svc : WriteSvc) (env : Env) (tr : List String) (ev mb : CalEvent),
        env.addAttendees = false →
        isInstanceId ev.id = false →
        (ev.status == some "cancelled") = false →
        (env.search ev.id).find? (fun b => b.description == some ev.id) = some mb →
        mb.start = ev.start → mb.endTime = ev.endTime → mb.recurrence = ev.recurrence →
        (processCalendar svc env false tr [ev]).writes = []) := by
  refine ⟨?_, ?_, ?_⟩
  · intro svc env st ev mb c2 hlook hstatus heq1 heq2 heq3
    simp [reconcilePhase, hlook, hstatus, heq1, heq2, heq3]
  · intro svc env ev haa hinst hstatus hfind
    have hcb : checkForBlockOnCalendar env.search ev.id [] = (none, setKey [] ev.id none) := by
      simp [checkForBlockOnCalendar, lookupKey, hfind]
    simp only [processCalendar, List.foldl, if_false, Bool.false_eq_true, Option.isSome_none]
    simp only [processEvent, hinst, Bool.false_eq_true, if_false]
    simp only [handleEvent, attendeePhase, haa, Bool.false_and, Bool.false_eq_true, if_false]
    simp only [reconcilePhase, hcb, hstatus]
    have hc : ([] : List String).contains ev.id = false := rfl
    simp only [Bool.not_false, if_true, hc, Bool.false_eq_true, if_false]
    split <;> rfl
  · intro svc env tr ev mb haa hinst hstatus hfind h1 h2 h3
    have hcb : checkForBlockOnCalendar env.search ev.id [] = (some mb, setKey [] ev.id (some mb)) := by
      simp [checkForBlockOnCalendar, lookupKey, hfind]
    simp only [processCalendar, List.foldl, if_false, Bool.false_eq_true, Option.isSome_none]
    simp only [processEvent, hinst, Bool.false_eq_true, if_false]
    simp only [handleEvent, attendeePhase, haa, Bool.false_and, Bool.false_eq_true, if_false]
    simp only [reconcilePhase, hcb, hstatus]
    simp [h1, h2, h3, areDatesEqual_refl, areRecurrencesEqual_refl]

/-- Witness for C4: `evt1` produces exactly one create on an empty blocker
calendar, and produces no write when its identical block is found. -/
theorem c4_witness :
    (processCalendar svcOk envEmpty false [] [evMeeting]).writes
      = [WriteOp.insert envEmpty.blockerCalId (buildBlock envEmpty evMeeting)]
    ∧ (processCalendar svcOk envFound false ["evt1"] [evMeeting]).writes = [] := by
  constructor
  · exact c4_unchanged_event_idempotent.2.1 svcOk envEmpty evMeeting rfl (by decide) rfl rfl
  · exact c4_unchanged_event_idempotent.2.2 svcOk envFound ["evt1"] evMeeting blockForMeeting
      rfl (by decide) rfl rfl rfl rfl rfl

/-! ### C8 — write failures -/

theorem attendeePhase_svc (svc1 svc2 : WriteSvc) (env : Env) (st : PState) (ev : CalEvent) :
    attendeePhase svc1 env st ev = attendeePhase svc2 env st ev := rfl

theorem reconcilePhase_svc (svc1 svc2 : WriteSvc) (env : Env) (st : PState) (ev : CalEvent) :
    (reconcilePhase svc1 env st ev).err = (reconcilePhase svc2 env st ev).err
    ∧ (reconcilePhase svc1 env st ev).writes = (reconcilePhase svc2 env st ev).writes
    ∧ (reconcilePhase svc1 env st ev).tracker = (reconcilePhase svc2 env st ev).tracker := by
  unfold reconcilePhase
  repeat' split
  all_goals exact ⟨rfl, rfl, rfl⟩

theorem handleEvent_svc (svc1 svc2 : WriteSvc) (env : Env) (st : PState) (ev : CalEvent) :
    (handleEvent svc1 env st ev).err = (handleEvent svc2 env st ev).err
    ∧ (handleEvent svc1 env st ev).writes = (handleEvent svc2 env st ev).writes
    ∧ (handleEvent svc1 env st ev).tracker = (handleEvent svc2 env st ev).tracker := by
  unfold handleEvent
  rw [attendeePhase_svc svc1 svc2 env st ev]
  exact reconcilePhase_svc svc1 svc2 env _ _

/-- C8 counterexample: the claim "a write failure never halts the run" fails.
Both runs process the same two events and differ only in whether the block
insert succeeds; the failed insert leaves the parent id cached as absent, so
the following start-less orphan instance takes the throwing path and the run
halts, while the successful run completes. -/
theorem c8_counterexample :
    ((processCalendar svcFail envEmpty false [] [evParentSeries, evOrphanNoStart]).err).isSome = true
    ∧ (processCalendar svcOk envEmpty false [] [evParentSeries, evOrphanNoStart]).err = none := by
  constructor
  · decide
  · decide

/-- C8 (amended): a failing create/update/delete is caught at single-event
granularity — for any two write services (e.g. all-succeeding vs
all-failing), processing one event yields the same error status, the same
attempted writes and the same tracker, so the failed operation itself never
raises and the loop continues identically; only the lookup cache (and hence
possibly later events) can differ. -/
theorem c8_write_failure_isolated (svc1 svc2 : WriteSvc) (env : Env) (st : PState) (ev : CalEvent) :
    (processEvent svc1 env st ev).err = (processEvent svc2 env st ev).err
    ∧ (processEvent svc1 env st ev).writes = (processEvent svc2 env st ev).writes
    ∧ (processEvent svc1 env st ev).tracker = (processEvent svc2 env st ev).tracker := by
  unfold processEvent
  split
  · split
    · exact ⟨rfl, rfl, rfl⟩
    · split
      · exact ⟨rfl, rfl, rfl⟩
      · split
        · exact ⟨rfl, rfl, rfl⟩
        · exact handleEvent_svc svc1 svc2 env _ _
  · exact handleEvent_svc svc1 svc2 env _ _

/-! ### C7 — sync-token fallback -/

/-- C7: with a stored (truthy) token, an incremental fetch that fails with
the stale-token message deletes the stored token from the persisted state
and then performs exactly one full-resync retry (options `fullModeOpts`:
30-day lower bound, no upper bound, no token), whose outcome is returned
as-is; any other fetch error is propagated untouched with no retry and the
state unchanged. -/
theorem c7_token_invalid_fallback
    (svcList : FetchOptions → Except String EventsPage)
    (calendarId timeMin30 : String) (pageFuel retryFuel : Nat)
    (st : SyncState) (tok msg : String)
    (hstored : lookupKey st.syncTokens calendarId = some tok)
    (htok : tok ≠ "")
    (herr : fetchPages svcList (tokenModeOpts (some tok)) pageFuel none []
      = some (.error msg)) :
    (messageIncludes msg staleTokenMsg = true →
      notStaleTokenRes (fetchPages svcList (fullModeOpts timeMin30) pageFuel none []) = true →
      fetchEventsByToken svcList calendarId timeMin30 pageFuel (retryFuel + 2) false st
        = fullFetchOutcome (fetchPages svcList (fullModeOpts timeMin30) pageFuel none [])
            { syncTokens := eraseKey st.syncTokens calendarId } calendarId
      ∧ lookupKey (eraseKey st.syncTokens calendarId) calendarId = none)
    ∧ (messageIncludes msg staleTokenMsg = false →
      fetchEventsByToken svcList calendarId timeMin30 pageFuel (retryFuel + 2) false st
        = some (.error msg, st)) := by
  have htt : tokenTruthy (some tok) = true := by
    simp [tokenTruthy, bne_iff_ne]
    exact htok
  constructor
  · intro hstale hfull
    constructor
    · simp only [fetchEventsByToken, hstored, htt, Bool.not_false, Bool.true_and, if_true]
      rw [herr]
      simp only [hstale, if_true]
      simp only [fetchEventsByToken, Bool.not_true, Bool.false_and, Bool.false_eq_true, if_false]
      cases hres : fetchPages svcList (fullModeOpts timeMin30) pageFuel none [] with
      | none => simp [fullFetchOutcome]
      | some r =>
        cases r with
        | error m =>
          rw [hres] at hfull
          have hm : messageIncludes m staleTokenMsg = false := by
            simpa [notStaleTokenRes] using hfull
          simp [fullFetchOutcome, hm]
        | ok p =>
          obtain ⟨evts, nextSync⟩ := p
          cases nextSync <;> simp [fullFetchOutcome]
    · exact lookupKey_eraseKey st.syncTokens calendarId
  · intro hstale
    simp only [fetchEventsByToken, hstored, htt, Bool.not_false, Bool.true_and, if_true]
    rw [herr]
    simp [hstale]

/-- Witness for C7: the stored token `tok0` for `cal1` is rejected as stale;
the token entry is erased and the single full-resync retry's outcome is
returned. -/
theorem c7_witness :
    fetchEventsByToken svcListWit "cal1" "TMIN30" 1 2 false syncStWit
      = fullFetchOutcome (fetchPages svcListWit (fullModeOpts "TMIN30") 1 none [])
          { syncTokens := eraseKey syncStWit.syncTokens "cal1" } "cal1"
    ∧ lookupKey (eraseKey syncStWit.syncTokens "cal1") "cal1" = none :=
  (c7_token_invalid_fallback svcListWit "cal1" "TMIN30" 1 0 syncStWit "tok0"
    "Sync token is no longer valid" rfl (by decide) rfl).1 (by decide) (by decide)

/-! ### C1 — at-most-one creation per run -/

theorem createCount_eq_count (ws : List WriteOp) (id : String) :
    createCount ws id = (createdIds ws).count id := by
  induction ws with
  | nil => rfl
  | cons op ws ih =>
    cases op with
    | insert c evv =>
      cases hd : evv.description with
      | none =>
        simp only [createCount, createdIds, List.countP_cons, List.filterMap_cons, hd] at ih ⊢
        simp [ih]
      | some d =>
        simp only [createCount, createdIds, List.countP_cons, List.filterMap_cons, hd] at ih ⊢
        by_cases hde : d = id <;> simp [hde, ih, List.count_cons]
    | update c i evv =>
      simp only [createCount, createdIds, List.countP_cons, List.filterMap_cons] at ih ⊢
      simp [ih]
    | remove c i =>
      simp only [createCount, createdIds, List.countP_cons, List.filterMap_cons] at ih ⊢
      simp [ih]

theorem trackerInv_mono (t0 : List String) (st st2 : PState)
    (hw : createdIds st2.writes = createdIds st.writes) (ht : st2.tracker = st.tracker)
    (h : TrackerInv t0 st) : TrackerInv t0 st2 := by
  unfold TrackerInv at h ⊢
  rw [hw, ht]
  exact h

theorem trackerInv_create (t0 : List String) (st : PState) (env : Env) (ev : CalEvent)
    (cache2 : List (String × Option CalEvent))
    (hc : st.tracker.contains ev.id = false) (h : TrackerInv t0 st) :
    TrackerInv t0 { cache := cache2, tracker := ev.id :: st.tracker,
                    writes := st.writes ++ [WriteOp.insert env.blockerCalId (buildBlock env ev)],
                    err := st.err } := by
  obtain ⟨hnd, hmem, ht0⟩ := h
  have hnotmem : ev.id ∉ st.tracker := by simp at hc; exact hc
  have hids : createdIds (st.writes ++ [WriteOp.insert env.blockerCalId (buildBlock env ev)])
      = createdIds st.writes ++ [ev.id] := by
    simp [createdIds_append, createdIds, buildBlock]
  refine ⟨?_, ?_, ?_⟩
  · show (createdIds (st.writes ++ [WriteOp.insert env.blockerCalId (buildBlock env ev)])).Nodup
    rw [hids]
    refine hnd.append (List.nodup_singleton _) ?_
    intro x hx hy
    rw [List.mem_singleton] at hy
    exact hnotmem (hy ▸ (hmem x hx).1)
  · intro id hid
    have hid2 : id ∈ createdIds
        (st.writes ++ [WriteOp.insert env.blockerCalId (buildBlock env ev)]) := hid
    rw [hids] at hid2
    show id ∈ ev.id :: st.tracker ∧ id ∉ t0
    rcases List.mem_append.mp hid2 with hold | hnew
    · exact ⟨List.mem_cons_of_mem _ (hmem id hold).1, (hmem id hold).2⟩
    · rw [List.mem_singleton] at hnew
      subst hnew
      exact ⟨List.mem_cons_self _ _, fun hmemt0 => hnotmem (ht0 _ hmemt0)⟩
  · intro id hid
    exact List.mem_cons_of_mem _ (ht0 id hid)

theorem attendeePhase_keeps (svc : WriteSvc) (env : Env) (st : PState) (ev : CalEvent) :
    createdIds ((attendeePhase svc env st ev).2).writes = createdIds st.writes
    ∧ ((attendeePhase svc env st ev).2).tracker = st.tracker := by
  unfold attendeePhase
  repeat' split
  all_goals simp [createdIds_append, createdIds]

theorem reconcilePhase_trackerInv (t0 : List String) (svc : WriteSvc) (env : Env)
    (st : PState) (ev : CalEvent) (h : TrackerInv t0 st) :
    TrackerInv t0 (reconcilePhase svc env st ev) := by
  unfold reconcilePhase
  split
  · split
    · exact trackerInv_mono t0 st _ (by simp [createdIds_append, createdIds]) rfl h
    · split
      · exact trackerInv_mono t0 st _ (by simp [createdIds_append, createdIds]) rfl h
      · exact trackerInv_mono t0 st _ rfl rfl h
  · split
    · split
      · exact trackerInv_mono t0 st _ rfl rfl h
      · rename_i hfound hstatus hcont
        have hc : st.tracker.contains ev.id = false := by
          simp only [Bool.not_eq_true] at hcont
          exact hcont
        split
        · exact trackerInv_create t0 st env ev _ hc h
        · exact trackerInv_create t0 st env ev _ hc h
    · exact trackerInv_mono t0 st _ rfl rfl h

theorem handleEvent_trackerInv (t0 : List String) (svc : WriteSvc) (env : Env)
    (st : PState) (ev : CalEvent) (h : TrackerInv t0 st) :
    TrackerInv t0 (handleEvent svc env st ev) := by
  unfold handleEvent
  refine reconcilePhase_trackerInv t0 svc env _ _ ?_
  exact trackerInv_mono t0 st _ (attendeePhase_keeps svc env st ev).1
    (attendeePhase_keeps svc env st ev).2 h

theorem processEvent_trackerInv (t0 : List String) (svc : WriteSvc) (env : Env)
    (st : PState) (ev : CalEvent) (h : TrackerInv t0 st) :
    TrackerInv t0 (processEvent svc env st ev) := by
  unfold processEvent
  split
  · split
    · exact trackerInv_mono t0 st _ rfl rfl h
    · split
      · exact trackerInv_mono t0 st _ rfl rfl h
      · split
        · exact trackerInv_mono t0 st _ rfl rfl h
        · exact handleEvent_trackerInv t0 svc env _ _
            (trackerInv_mono t0 st _ rfl rfl h)
  · exact handleEvent_trackerInv t0 svc env _ _ h

theorem foldl_trackerInv (svc : WriteSvc) (env : Env) (t0 : List String) :
    ∀ (events : List CalEvent) (st : PState), TrackerInv t0 st →
      TrackerInv t0 (events.foldl
        (fun st ev => if st.err.isSome then st else processEvent svc env st ev) st) := by
  intro events
  induction events with
  | nil => intro st h; exact h
  | cons ev evs ih =>
    intro st h
    rw [List.foldl_cons]
    refine ih _ ?_
    by_cases he : st.err.isSome
    · simp [he, h]
    · simp only [he, if_false]
      exact processEvent_trackerInv t0 svc env st ev h

theorem processCalendar_trackerInv (svc : WriteSvc) (env : Env) (dryRun : Bool)
    (t0 : List String) (events : List CalEvent) :
    TrackerInv t0 (processCalendar svc env dryRun t0 events) := by
  have hinit : TrackerInv t0 ({ cache := [], tracker := t0, writes := [], err := none } : PState) := by
    refine ⟨by simp [createdIds], ?_, fun id h => h⟩
    intro id hid
    simp [createdIds] at hid
  unfold processCalendar
  split
  · exact hinit
  · exact foldl_trackerInv svc env t0 events _ hinit

/-- C1: over a whole reactive run — both source calendars processed with the
one shared cross-calendar tracker — every source-event id has at most one
block create dispatched against the blocker calendar, and every id whose
create was dispatched is in the tracker at run end (it was added before the
insert, so a later delivery of the same id skips creation). -/
theorem c1_at_most_one_create_per_run
    (cfg : RunCfg) (svc : WriteSvc) (fetched search : String → List CalEvent)
    (parse : String → Option Int) (now : Int) :
    (∀ id, createCount (reactiveRun cfg svc fetched search parse now).writes id ≤ 1)
    ∧ (∀ id ∈ createdIds (reactiveRun cfg svc fetched search parse now).writes,
        id ∈ (reactiveRun cfg svc fetched search parse now).tracker) := by
  have I1 := processCalendar_trackerInv svc (schedulerEnv cfg search parse now) false []
    (fetched cfg.schedulerCal)
  simp only [reactiveRun]
  split
  · obtain ⟨hnd, hmem, -⟩ := I1
    exact ⟨fun id => by rw [createCount_eq_count]; exact List.nodup_iff_count_le_one.mp hnd id,
           fun id hid => (hmem id hid).1⟩
  · have I2 := processCalendar_trackerInv svc (homeEnv cfg search parse now) false
      (processCalendar svc (schedulerEnv cfg search parse now) false []
        (fetched cfg.schedulerCal)).tracker
      (fetched cfg.homeCal)
    obtain ⟨hnd1, hmem1, -⟩ := I1
    obtain ⟨hnd2, hmem2, hsub2⟩ := I2
    have hndall : (createdIds
        ((processCalendar svc (schedulerEnv cfg search parse now) false []
            (fetched cfg.schedulerCal)).writes ++
         (processCalendar svc (homeEnv cfg search parse now) false
            (processCalendar svc (schedulerEnv cfg search parse now) false []
              (fetched cfg.schedulerCal)).tracker
            (fetched cfg.homeCal)).writes)).Nodup := by
      rw [createdIds_append]
      refine hnd1.append hnd2 ?_
      intro x hx1 hx2
      exact (hmem2 x hx2).2 ((hmem1 x hx1).1)
    constructor
    · intro id
      rw [createCount_eq_count]
      exact List.nodup_iff_count_le_one.mp hndall id
    · intro id hid
      have hid2 : id ∈ createdIds
          ((processCalendar svc (schedulerEnv cfg search parse now) false []
              (fetched cfg.schedulerCal)).writes ++
           (processCalendar svc (homeEnv cfg search parse now) false
              (processCalendar svc (schedulerEnv cfg search parse now) false []
                (fetched cfg.schedulerCal)).tracker
              (fetched cfg.homeCal)).writes) := hid
      rw [createdIds_append] at hid2
      show id ∈ (processCalendar svc (homeEnv cfg search parse now) false
        (processCalendar svc (schedulerEnv cfg search parse now) false []
          (fetched cfg.schedulerCal)).tracker (fetched cfg.homeCal)).tracker
      rcases List.mem_append.mp hid2 with h1 | h2
      · exact hsub2 id ((hmem1 id h1).1)
      · exact (hmem2 id h2).1

/-! ### C2 — run sequencing -/

/-- C2 counterexample: with one confirmed scheduler event and nothing on the
home calendar, the reactive run's trace fetches the home calendar *before*
the scheduler calendar's reconciliation write, so the trace does not have the
claimed fetch-drain-fetch-drain shape (`drainShape`). -/
theorem c2_counterexample :
    drainShape "sched" "home" (reactiveRunTrace cfgRun svcOk fetchedRun searchRun parseRun 0) = false
    ∧ reactiveRunTrace cfgRun svcOk fetchedRun searchRun parseRun 0
      = [RunAction.fetch "sched", RunAction.fetch "home",
         RunAction.write "sched"
           (WriteOp.insert "blocker" (buildBlock (schedulerEnv cfgRun searchRun parseRun 0) evMeeting))] := by
  constructor
  · decide
  · decide

/-- C2 (amended): the run is strictly sequential, but both delta fetches
happen up front: the trace is fetch(scheduler), fetch(home), then all of the
scheduler calendar's reconciliation writes in order, then all of the home
calendar's, the home calendar being processed with the scheduler run's final
tracker. -/
theorem c2_fetch_then_sequential_reconcile
    (cfg : RunCfg) (svc : WriteSvc) (fetched search : String → List CalEvent)
    (parse : String → Option Int) (now : Int)
    (h : (processCalendar svc (schedulerEnv cfg search parse now) false []
        (fetched cfg.schedulerCal)).err = none) :
    reactiveRunTrace cfg svc fetched search parse now
      = RunAction.fetch cfg.schedulerCal :: RunAction.fetch cfg.homeCal ::
        ((processCalendar svc (schedulerEnv cfg search parse now) false []
            (fetched cfg.schedulerCal)).writes.map (RunAction.write cfg.schedulerCal)
         ++ (processCalendar svc (homeEnv cfg search parse now) false
              (processCalendar svc (schedulerEnv cfg search parse now) false []
                (fetched cfg.schedulerCal)).tracker
              (fetched cfg.homeCal)).writes.map (RunAction.write cfg.homeCal)) := by
  simp only [reactiveRunTrace, h]

/-- Witness for C2's amended theorem: the concrete one-event run, where the
scheduler processing raises no exception. -/
theorem c2_witness :
    reactiveRunTrace cfgRun svcOk fetchedRun searchRun parseRun 0
      = RunAction.fetch cfgRun.schedulerCal :: RunAction.fetch cfgRun.homeCal ::
        ((processCalendar svcOk (schedulerEnv cfgRun searchRun parseRun 0) false []
            (fetchedRun cfgRun.schedulerCal)).writes.map (RunAction.write cfgRun.schedulerCal)
         ++ (processCalendar svcOk (homeEnv cfgRun searchRun parseRun 0) false
              (processCalendar svcOk (schedulerEnv cfgRun searchRun parseRun 0) false []
                (fetchedRun cfgRun.schedulerCal)).tracker
              (fetchedRun cfgRun.homeCal)).writes.map (RunAction.write cfgRun.homeCal)) :=
  c2_fetch_then_sequential_reconcile cfgRun svcOk fetchedRun searchRun parseRun 0 (by decide)

/-- Witness for C3's amended characterisation: equal projections give
equality, and a date-only value never equals a date-time value. -/
theorem c3_witness :
    areDatesEqual (some dtJun1) (some dtJun1) = true
    ∧ areDatesEqual
        (some { date := some "2025-06-01", dateTime := none, timeZone := none })
        (some dtJun1) = false := by
  constructor
  · exact (c3_date_equality_characterisation.1 (some dtJun1) (some dtJun1)).mpr rfl
  · exact c3_date_equality_characterisation.2
      { date := some "2025-06-01", dateTime := none, timeZone := none } dtJun1 rfl (by decide)
